import Mathlib

/-!
# Verification of the chat conversation core (chat.jsx, NewChatScreen)

Shallow embedding of the conversation-resolution / message-send logic of
`src/chat.jsx` and the user-list logic of the NewChatScreen source file.

The Firestore store is modelled as an explicit state:
* the `chats` collection is a list of `ChatDoc` in creation order, with
  document ids modelled as a fresh counter (`nextDocId`) — `doc(collection(db,
  "chats"))` generates a fresh id client-side;
* the per-chat `messages` subcollection is a flat list of `(parent docId,
  MessageDoc)` pairs in append order (Firestore subcollections exist
  independently of the parent document, so `addDoc` never needs the parent
  to exist, while `updateDoc` fails on a missing document);
* `serverTimestamp()` is modelled by the store's `now` field.

Fallible store calls (`setDoc`, `addDoc`, `updateDoc`) are driven by a
`StoreBehavior` record saying which of them fail, and `onSend` returns the
(partially updated) store together with the promise outcome: a rejected
`await` aborts the rest of the async function, which the sequencing of the
definition reproduces.
-/

/-- Participant / user ids are strings (Firebase uids). -/
abbrev Uid := String

/-- Document ids, modelled as a counter of freshly generated ids. -/
abbrev DocId := Nat

/-- JS `a || b` on strings: empty string is falsy. -/
def jsOr (a b : String) : String :=
  if a = "" then b else a

/-- JS `a || b` where `a` may be absent (`undefined`/`null`) or empty. -/
def jsOrOpt (a : Option String) (b : String) : String :=
  match a with
  | none => b
  | some s => jsOr s b

/-- The JS default sort's string comparison, lexicographic on code units:
equal heads recurse, otherwise the smaller code unit decides; a prefix
sorts before its extensions. -/
def charListLe : List Char → List Char → Bool
  | [], _ => true
  | _ :: _, [] => false
  | a :: as, b :: bs =>
    if a = b then charListLe as bs
    else a.val.toNat < b.val.toNat

/-- `a <= b` in the order the JS default array sort uses for strings. -/
def strLe (a b : Uid) : Bool :=
  charListLe a.data b.data

/-- `[currentUser.uid, recipientId].sort()` (chat.jsx:90,151): JS default sort
on a two-element string array puts the code-unit-lexicographically smaller
string first. -/
def sortPair (a b : Uid) : List Uid :=
  if strLe a b then [a, b] else [b, a]

/-- A message document of the `messages` subcollection (chat.jsx:181-187).
`createdAt` is optional: a pending `serverTimestamp()` reads back as null. -/
structure MessageDoc where
  docId : DocId
  text : String
  createdAt : Option Nat
  senderId : Uid
  senderName : String
  senderImage : Option String
deriving DecidableEq, Repr

/-- A chat document of the `chats` collection (chat.jsx:162-177). -/
structure ChatDoc where
  docId : DocId
  participants : List Uid
  createdAt : Option Nat
  lastMessageText : String
  lastMessageTimestamp : Option Nat
  participantNames : List (Uid × Option String)
  participantImages : List (Uid × Option String)
  vehicleName : Option String
deriving DecidableEq, Repr

/-- The Firestore state visible to this screen. -/
structure Store where
  chats : List ChatDoc
  msgs : List (DocId × MessageDoc)
  nextDocId : DocId
  nextMsgId : DocId
  now : Nat
deriving DecidableEq, Repr

/-- The authenticated user's data as held in component state (chat.jsx:69,72). -/
structure CurrentUser where
  uid : Uid
  displayName : Option String
  email : String
  profileImage : Option String
deriving DecidableEq, Repr

/-- The only field of a GiftedChat outgoing message that `onSend` reads
(chat.jsx:148). -/
structure GMsg where
  text : String
deriving DecidableEq, Repr

/-- Which of the three store calls of `onSend` reject their promise. -/
structure StoreBehavior where
  createFails : Bool
  appendFails : Bool
  updateFails : Bool
deriving DecidableEq, Repr

/-- The error a rejected store promise propagates out of the async `onSend`
(the code has no catch: the step's own rejection is the caller-visible
failure). -/
inductive SendError where
  | createFailed
  | appendFailed
  | updateFailed
deriving DecidableEq, Repr

deriving instance DecidableEq for Except

/-- Screen parameters and component state that `onSend` closes over
(chat.jsx:52,57,144-147). -/
structure SendCtx where
  currentUser : Option CurrentUser
  recipientId : Uid
  recipientName : Option String
  recipientImage : Option String
  vehicleName : Option String
  chatDocId : Option DocId
deriving DecidableEq, Repr

/-- Result of one `onSend` call: the store after whatever writes happened,
the component's `chatDocId` state after the call, and the promise outcome. -/
structure SendResult where
  store : Store
  chatDocId : Option DocId
  outcome : Except SendError Unit
deriving DecidableEq, Repr

/-- `updateDoc(currentChatRef, {lastMessageText, lastMessageTimestamp})`
(chat.jsx:190-194): Firestore's `updateDoc` fails when the document does
not exist. -/
def updateChatSummary (s : Store) (d : DocId) (text : String) (ts : Nat) :
    Option Store :=
  if s.chats.any (fun c => c.docId = d) then
    some { s with chats := s.chats.map (fun c =>
      if c.docId = d then
        { c with lastMessageText := text, lastMessageTimestamp := some ts }
      else c) }
  else none

/-- The chat document `setDoc` writes on first send (chat.jsx:162-177):
sorted participants, server-stamped `createdAt`, the sent text as summary,
and the denormalized participant names/images and vehicle name. -/
def mkChatDoc (cu : CurrentUser) (ctx : SendCtx) (text : String) (s : Store) :
    ChatDoc :=
  { docId := s.nextDocId
    participants := sortPair cu.uid ctx.recipientId
    createdAt := some s.now
    lastMessageText := text
    lastMessageTimestamp := some s.now
    participantNames :=
      [(cu.uid, some (jsOrOpt cu.displayName cu.email)),
       (ctx.recipientId, ctx.recipientName)]
    participantImages :=
      [(cu.uid, cu.profileImage),
       (ctx.recipientId, ctx.recipientImage)]
    vehicleName := ctx.vehicleName }

/-- The message document `addDoc` writes (chat.jsx:181-187). -/
def mkMsgDoc (cu : CurrentUser) (text : String) (s1 : Store) : MessageDoc :=
  { docId := s1.nextMsgId
    text := text
    createdAt := some s1.now
    senderId := cu.uid
    senderName := jsOrOpt cu.displayName cu.email
    senderImage := cu.profileImage }

/-- The `await updateDoc` summary step of `onSend` (chat.jsx:190-194): a
rejection — injected or from a missing document — propagates out of the
async function. -/
def summaryStep (b : StoreBehavior) (localId : Option DocId) (ref : DocId)
    (text : String) (s2 : Store) : SendResult :=
  if b.updateFails then ⟨s2, localId, .error .updateFailed⟩
  else
    match updateChatSummary s2 ref text s2.now with
    | some s3 => ⟨s3, localId, .ok ()⟩
    | none => ⟨s2, localId, .error .updateFailed⟩

/-- The tail of `onSend` once the chat document reference is settled:
`await addDoc` appends the message to the subcollection (chat.jsx:181-187)
— its rejection aborts the function — then the summary step runs. -/
def sendToRef (b : StoreBehavior) (cu : CurrentUser) (text : String)
    (ref : DocId) (localId : Option DocId) (s1 : Store) : SendResult :=
  if b.appendFails then ⟨s1, localId, .error .appendFailed⟩
  else
    summaryStep b localId ref text
      { s1 with msgs := s1.msgs ++ [(ref, mkMsgDoc cu text s1)],
                nextMsgId := s1.nextMsgId + 1 }

/-- `onSend` (chat.jsx:144-196), translated statement by statement.

* guard (145): `if (!currentUser || !recipientId || newMessages.length === 0)
  return;` — an early `return`, not an error;
* `participants` (151): the sorted pair (inside `mkChatDoc`);
* chat-ref choice (153-160): reuse `chatDocId` if set, otherwise generate a
  fresh document id and call `setChatDocId` with it BEFORE awaiting `setDoc`;
* `setDoc` (162-177): writes the new chat document;
* then `addDoc` and `updateDoc` (`sendToRef`).
A rejected `await` makes the rest of the function unreachable. -/
def onSend (b : StoreBehavior) (ctx : SendCtx) (newMessages : List GMsg)
    (s : Store) : SendResult :=
  match ctx.currentUser with
  | none => ⟨s, ctx.chatDocId, .ok ()⟩
  | some cu =>
    if ctx.recipientId = "" then ⟨s, ctx.chatDocId, .ok ()⟩
    else
      match newMessages with
      | [] => ⟨s, ctx.chatDocId, .ok ()⟩
      | msg :: _ =>
        match ctx.chatDocId with
        | some d =>
          sendToRef b cu msg.text d (some d) s
        | none =>
          if b.createFails then
            ⟨{ s with nextDocId := s.nextDocId + 1 }, some s.nextDocId,
             .error .createFailed⟩
          else
            sendToRef b cu msg.text s.nextDocId (some s.nextDocId)
              { s with nextDocId := s.nextDocId + 1,
                       chats := s.chats ++ [mkChatDoc cu ctx msg.text s] }

/-- The number of chat documents stored for a given (sorted) participants
value — the claims' "Conversation records under that pair's key". -/
def countConvs (s : Store) (p : List Uid) : Nat :=
  (s.chats.filter (fun c => c.participants = p)).length

/-- The chat-lookup query of the screen effect (chat.jsx:93-97):
`where("participants", "==", participants)` with `limit(1)`; an unordered
Firestore query returns documents in document-id order, which creation
order realises here. -/
def resolveChatDocId (s : Store) (a b : Uid) : Option DocId :=
  (s.chats.find? (fun c => c.participants = sortPair a b)).map (·.docId)

/-- The message shape handed to GiftedChat (chat.jsx:119-128). -/
structure ProjMsg where
  id : DocId
  text : String
  createdAt : Option Nat
  userId : Uid
  userName : String
  userAvatar : Option String
deriving DecidableEq, Repr

/-- `Timestamp.toDate()`: on our Nat-valued timestamps, the identity. -/
def toDate (t : Nat) : Nat := t

/-- One document of the message snapshot mapped to a GiftedChat message
(chat.jsx:117-129); `data.createdAt?.toDate()` is optional chaining, so an
absent timestamp projects to no value instead of throwing. -/
def projectDoc (m : MessageDoc) : ProjMsg :=
  { id := m.docId
    text := m.text
    createdAt := m.createdAt.map toDate
    userId := m.senderId
    userName := m.senderName
    userAvatar := m.senderImage }

/-- Store-side comparator for `orderBy("createdAt", "desc")` (chat.jsx:114):
`m` is served before `m'` when its timestamp is larger; Firestore breaks
ties by the implicit trailing `__name__` sort, descending like the explicit
field. Documents in scope carry their timestamps (`getD 0` only totalises). -/
def descBefore (m m' : MessageDoc) : Bool :=
  (m'.createdAt.getD 0 < m.createdAt.getD 0) ||
  (m'.createdAt.getD 0 = m.createdAt.getD 0 && m'.docId < m.docId)

/-- Insertion step of the store's descending sort. -/
def insertByDesc (a : MessageDoc) : List MessageDoc → List MessageDoc
  | [] => [a]
  | b :: l => if descBefore a b then a :: b :: l else b :: insertByDesc a l

/-- The store's ordered range read: the subcollection sorted descending. -/
def sortMsgsDesc : List MessageDoc → List MessageDoc
  | [] => []
  | a :: l => insertByDesc a (sortMsgsDesc l)

/-- The append-order message log of chat `d` (the `messages` subcollection). -/
def msgLog (s : Store) (d : DocId) : List MessageDoc :=
  (s.msgs.filter (fun p => p.1 = d)).map (·.2)

/-- The snapshot served for `query(messagesRef, orderBy("createdAt", "desc"))`
(chat.jsx:113-114). -/
def queryMessagesDesc (s : Store) (d : DocId) : List MessageDoc :=
  sortMsgsDesc (msgLog s d)

/-- `loadedMessages` (chat.jsx:117-130): what `setMessages` receives and the
observer (GiftedChat) displays — the snapshot mapped, in query order; no
reversal, re-sort or de-duplication happens after the query. -/
def loadedMessages (s : Store) (d : DocId) : List ProjMsg :=
  (queryMessagesDesc s d).map projectDoc

/-- The find-chat-and-listen effect (chat.jsx:85-141) on mount: wait for user
and recipient (86-88), run the participants query (90-97), take the found
document id if any (100-108), and start the message listener on it
(111-135). Every store interaction in this effect is a read or a
subscription; `setChatDocId`/`setMessages` are component state. The returned
store is the store after the effect. -/
def viewEffect (s : Store) (currentUser : Option CurrentUser)
    (recipientId : Uid) : Store × Option DocId × List ProjMsg :=
  match currentUser with
  | none => (s, none, [])
  | some cu =>
    if recipientId = "" then (s, none, [])
    else
      match resolveChatDocId s cu.uid recipientId with
      | some d => (s, some d, loadedMessages s d)
      | none => (s, none, [])

/-- A document of the `users` collection as read by NewChatScreen; string
fields absent in the document are the empty string (JS `undefined` is falsy
exactly like `""` under `||`). -/
structure UserDoc where
  id : String
  displayName : String
  fullName : String
  email : String
  profileImage : Option String
deriving DecidableEq, Repr

/-- A row of the new-chat user list. -/
structure UserItem where
  id : String
  displayName : String
  profileImage : Option String
deriving DecidableEq, Repr

/-- The map step of `fetchUsers`:
`displayName || fullName || email`, `profileImage || null`. -/
def projectUser (d : UserDoc) : UserItem :=
  { id := d.id
    displayName := jsOr d.displayName (jsOr d.fullName d.email)
    profileImage := d.profileImage }

/-- `fetchUsers` (NewChatScreen): the snapshot docs filtered by
`doc.id !== currentUserUid` then mapped to list rows. The query orders by
`displayName`; the snapshot argument is the list the store serves. -/
def fetchUsers (snapshot : List UserDoc) (currentUserUid : String) :
    List UserItem :=
  (snapshot.filter (fun d => d.id ≠ currentUserUid)).map projectUser

/-! ## Concrete scenario material -/

/-- The store before any conversation exists. -/
def emptyStore : Store := ⟨[], [], 0, 0, 0⟩

/-- Participant A of the scenarios. -/
def alice : CurrentUser := ⟨"u1", some "Alice", "alice@x", none⟩

/-- Participant B of the scenarios. -/
def bob : CurrentUser := ⟨"u2", some "Bob", "bob@x", none⟩

/-- All three store calls succeed. -/
def allOk : StoreBehavior := ⟨false, false, false⟩

/-- A's screen talking to B, no chat document resolved yet. -/
def ctxAlice : SendCtx := ⟨some alice, "u2", some "Bob", none, none, none⟩

/-- B's screen talking to A, no chat document resolved yet. -/
def ctxBob : SendCtx := ⟨some bob, "u1", some "Alice", none, none, none⟩

/-- B's screen talking to A after its snapshot listener observed the chat
document that A's first send created (document id 0). -/
def ctxBobResolved : SendCtx := ⟨some bob, "u1", some "Alice", none, none, some 0⟩

/-- A's screen with itself as recipient. -/
def ctxSelf : SendCtx := ⟨some alice, "u1", none, none, none, none⟩

/-- A store holding one conversation (document id 0) with two messages
appended in order: ids 0 then 1, timestamps 1 then 2. -/
def twoMsgStore : Store :=
  ⟨[⟨0, ["u1", "u2"], some 0, "second", some 2, [], [], none⟩],
   [(0, ⟨0, "first", some 1, "u1", "Alice", none⟩),
    (0, ⟨1, "second", some 2, "u2", "Bob", none⟩)],
   1, 2, 3⟩

/-! ## Helper lemmas -/

/-- The summary rewrite of `updateDoc` touches only the summary fields, so
the participants of every chat document are preserved. -/
lemma summaryRewrite_participants (d : DocId) (text : String) (ts : Nat)
    (c : ChatDoc) :
    ((if c.docId = d then
        { c with lastMessageText := text, lastMessageTimestamp := some ts }
      else c) : ChatDoc).participants = c.participants := by
  split <;> rfl

/-- Mapping a participants-preserving function over the chats leaves the
number of chats for a given pair unchanged. -/
lemma length_filter_map_participants (f : ChatDoc → ChatDoc)
    (hf : ∀ c, (f c).participants = c.participants) (p : List Uid)
    (l : List ChatDoc) :
    ((l.map f).filter (fun c => c.participants = p)).length =
      (l.filter (fun c => c.participants = p)).length := by
  induction l with
  | nil => rfl
  | cons c t ih =>
    simp only [List.map_cons, List.filter_cons, hf c]
    split <;> simp [ih]

/-- A successful summary update never changes how many conversations exist
for any pair. -/
lemma countConvs_updateChatSummary (s : Store) (d : DocId) (t : String)
    (ts : Nat) (s' : Store) (p : List Uid)
    (h : updateChatSummary s d t ts = some s') :
    countConvs s' p = countConvs s p := by
  unfold updateChatSummary at h
  split at h
  · cases h
    unfold countConvs
    exact length_filter_map_participants _
      (fun c => summaryRewrite_participants d t ts c) p s.chats
  · cases h

/-- The summary step never changes how many conversations exist for any
pair. -/
lemma countConvs_summaryStep (b : StoreBehavior) (localId : Option DocId)
    (ref : DocId) (text : String) (s2 : Store) (p : List Uid) :
    countConvs (summaryStep b localId ref text s2).store p =
      countConvs s2 p := by
  unfold summaryStep
  split
  · rfl
  · split
    next s3 h => exact countConvs_updateChatSummary _ _ _ _ _ p h
    next h => rfl

/-- The append-then-update tail of `onSend` never changes how many
conversations exist for any pair. -/
lemma countConvs_sendToRef (b : StoreBehavior) (cu : CurrentUser)
    (text : String) (ref : DocId) (localId : Option DocId) (s1 : Store)
    (p : List Uid) :
    countConvs (sendToRef b cu text ref localId s1).store p =
      countConvs s1 p := by
  unfold sendToRef
  split
  · rfl
  · rw [countConvs_summaryStep]
    rfl

/-- The code-unit comparison is antisymmetric. -/
lemma charListLe_antisymm : ∀ l m, charListLe l m = true →
    charListLe m l = true → l = m
  | [], [] => fun _ _ => rfl
  | [], _ :: _ => fun _ h2 => by simp [charListLe] at h2
  | _ :: _, [] => fun h1 _ => by simp [charListLe] at h1
  | a :: as, b :: bs => fun h1 h2 => by
    by_cases hab : a = b
    · subst hab
      simp only [charListLe, if_pos rfl] at h1 h2
      rw [charListLe_antisymm as bs h1 h2]
    · have hba : ¬ b = a := fun h => hab h.symm
      simp only [charListLe, if_neg hab, if_neg hba,
        decide_eq_true_eq] at h1 h2
      omega

/-- The code-unit comparison is total. -/
lemma charListLe_total : ∀ l m,
    charListLe l m = true ∨ charListLe m l = true
  | [], _ => Or.inl rfl
  | _ :: _, [] => Or.inr rfl
  | a :: as, b :: bs => by
    by_cases hab : a = b
    · subst hab
      simpa [charListLe] using charListLe_total as bs
    · have hba : ¬ b = a := fun h => hab h.symm
      have hv : a.val.toNat ≠ b.val.toNat := by
        intro h
        exact hab (Char.ext (UInt32.ext (by exact_mod_cast h)))
      simp only [charListLe, if_neg hab, if_neg hba, decide_eq_true_eq]
      omega

/-- Two strings each at most the other in the JS sort order are equal. -/
lemma strLe_antisymm (a b : Uid) (h1 : strLe a b = true)
    (h2 : strLe b a = true) : a = b :=
  String.ext (charListLe_antisymm _ _ h1 h2)

/-- The JS sort order is total on strings. -/
lemma strLe_total (a b : Uid) : strLe a b = true ∨ strLe b a = true :=
  charListLe_total _ _

/-- `[a, b].sort()` does not depend on the order of its two arguments. -/
lemma sortPair_comm (a b : Uid) : sortPair a b = sortPair b a := by
  unfold sortPair
  cases h1 : strLe a b <;> cases h2 : strLe b a <;> simp
  · exfalso
    rcases strLe_total a b with h | h
    · rw [h1] at h
      simp at h
    · rw [h2] at h
      simp at h
  · have hab := strLe_antisymm a b h1 h2
    exact ⟨hab, hab.symm⟩

/-! ## Claims -/

/-- Claim C2, amended: the conversation lookup of the screen effect is
order-independent — resolving (A, B) and resolving (B, A) query the same
sorted participants value and hence find the same chat document in any
store. (The unamended second half of the claim — that two separate
resolutions of a pair with no existing conversation yield the same key —
fails: the created document id is fresh, see the counterexample.) -/
theorem C2_amended (s : Store) (a b : Uid) :
    resolveChatDocId s a b = resolveChatDocId s b a := by
  unfold resolveChatDocId
  rw [sortPair_comm]

/-- Claim C9: the message projection is total on messages whose `createdAt`
is absent (pending server timestamp): `data.createdAt?.toDate()` projects
to no value, and id, text and sender fields are still projected. -/
theorem C9_projection_total (m : MessageDoc) (h : m.createdAt = none) :
    projectDoc m =
      { id := m.docId, text := m.text, createdAt := none,
        userId := m.senderId, userName := m.senderName,
        userAvatar := m.senderImage } := by
  simp [projectDoc, h]

/-- Witness for C9: a concrete message with a pending timestamp projects
with `createdAt = none` and every other field intact. -/
theorem C9_witness :
    projectDoc ⟨7, "pending", none, "u9", "Nina", none⟩ =
      ⟨7, "pending", none, "u9", "Nina", none⟩ :=
  C9_projection_total ⟨7, "pending", none, "u9", "Nina", none⟩ rfl

/-- Claim C10: the new-chat user list is the users snapshot with the
authenticated user's own id removed (ids of the produced rows are exactly
the snapshot's ids without `me`), so the list never contains the current
user. -/
theorem C10_excludes_self (snapshot : List UserDoc) (me : String) :
    ((fetchUsers snapshot me).map (·.id) =
      (snapshot.map (·.id)).filter (fun i => i ≠ me)) ∧
    ∀ u ∈ fetchUsers snapshot me, u.id ≠ me := by
  constructor
  · induction snapshot with
    | nil => rfl
    | cons d t ih =>
      by_cases h : d.id = me
      · simpa [fetchUsers, h] using ih
      · simp only [fetchUsers, ne_eq, decide_not, List.map_map] at ih
        simp [fetchUsers, h, projectUser]
        exact ih
  · intro u hu
    unfold fetchUsers at hu
    obtain ⟨d, hd, rfl⟩ := List.mem_map.mp hu
    have hmem := List.of_mem_filter hd
    simpa [projectUser] using hmem

/-- Witness for C10: in a concrete snapshot holding the current user "me"
and one other user, the other user's row is in the list and its id is not
"me". -/
theorem C10_witness :
    (⟨"u2", "Bob Full", none⟩ : UserItem).id ≠ "me" :=
  (C10_excludes_self
      [⟨"me", "Me", "", "me@x", none⟩, ⟨"u2", "", "Bob Full", "b@x", none⟩]
      "me").2
    ⟨"u2", "Bob Full", none⟩ (by decide)

/-- Claim C1, counterexample: from a store with no conversation for the pair
{u1, u2}, A's send (unresolved `chatDocId`) and B's send (also unresolved,
its snapshot taken before A's create landed) each take the create branch
with a fresh document id, leaving TWO Conversation records for the pair —
not exactly one. -/
theorem C1_counterexample :
    countConvs (onSend allOk ctxBob [⟨"yo"⟩]
        (onSend allOk ctxAlice [⟨"hi"⟩] emptyStore).store).store
      (sortPair "u1" "u2") = 2 := by
  decide

/-- Claim C1, amended: a send whose screen has already resolved a chat
document id never creates a Conversation record — the count for every pair
is unchanged — so exactly one record exists for the pair after A's first
send and a B send that observed it; uniqueness fails only when both
senders start unresolved (see the counterexample). -/
theorem C1_amended :
    (∀ (b : StoreBehavior) (cuOpt : Option CurrentUser) (rid : Uid)
        (rn ri vn : Option String) (d : DocId) (msgs : List GMsg) (s : Store)
        (p : List Uid),
      countConvs (onSend b ⟨cuOpt, rid, rn, ri, vn, some d⟩ msgs s).store p =
        countConvs s p) ∧
    countConvs (onSend allOk ctxBobResolved [⟨"yo"⟩]
        (onSend allOk ctxAlice [⟨"hi"⟩] emptyStore).store).store
      (sortPair "u1" "u2") = 1 := by
  constructor
  · intro b cuOpt rid rn ri vn d msgs s p
    cases cuOpt with
    | none => rfl
    | some cu =>
      by_cases hr : rid = ""
      · simp [onSend, hr]
      · cases msgs with
        | nil => simp [onSend, hr]
        | cons m rest => simp [onSend, hr, countConvs_sendToRef]
  · decide

/-- Claim C2, counterexample: the key under which the record is stored is
NOT a pure function of the pair. On two occasions on which the pair
{u1, u2} has no existing conversation (the empty store, and a store where
an unrelated pair created first), the first send stores the record under
document id 0 on the one occasion and under document id 1 on the other. -/
theorem C2_counterexample :
    resolveChatDocId emptyStore "u1" "u2" = none ∧
    resolveChatDocId
      (onSend allOk ⟨some ⟨"u3", none, "carol@x", none⟩, "u4", none, none,
        none, none⟩ [⟨"x"⟩] emptyStore).store "u1" "u2" = none ∧
    (onSend allOk ctxAlice [⟨"hi"⟩] emptyStore).chatDocId = some 0 ∧
    (onSend allOk ctxAlice [⟨"hi"⟩]
      (onSend allOk ⟨some ⟨"u3", none, "carol@x", none⟩, "u4", none, none,
        none, none⟩ [⟨"x"⟩] emptyStore).store).chatDocId = some 1 ∧
    (0 : DocId) ≠ 1 := by
  decide

/-- Claim C3, counterexample: a whitespace-only text is NOT rejected before
store calls: sending `" "` from a fresh screen succeeds, creates the
conversation record and appends the whitespace message. -/
theorem C3_counterexample :
    (onSend allOk ctxAlice [⟨" "⟩] emptyStore).outcome = .ok () ∧
    (onSend allOk ctxAlice [⟨" "⟩] emptyStore).store.chats.length = 1 ∧
    (onSend allOk ctxAlice [⟨" "⟩] emptyStore).store.msgs.map (·.2.text) =
      [" "] := by
  decide

/-- Claim C3, amended: the only send-side guard is
`!currentUser || !recipientId || newMessages.length === 0`, a silent early
return with no store call and no error; text content is never validated,
so a whitespace-only message is stored as-is. -/
theorem C3_amended :
    (∀ (b : StoreBehavior) (ctx : SendCtx) (s : Store),
      onSend b ctx [] s = ⟨s, ctx.chatDocId, .ok ()⟩) ∧
    (onSend allOk ctxAlice [⟨"  "⟩] emptyStore).store.msgs.map (·.2.text) =
      ["  "] := by
  constructor
  · intro b ctx s
    obtain ⟨cuOpt, rid, rn, ri, vn, cid⟩ := ctx
    cases cuOpt with
    | none => rfl
    | some cu => by_cases hr : rid = "" <;> simp [onSend, hr]
  · decide

/-- Claim C4, counterexample: no `InvalidPairing` check exists. With the
recipient equal to the sender (`"u1"`), the send succeeds and creates a
conversation whose participants are `["u1", "u1"]`. -/
theorem C4_counterexample :
    (onSend allOk ctxSelf [⟨"hi"⟩] emptyStore).outcome = .ok () ∧
    (onSend allOk ctxSelf [⟨"hi"⟩] emptyStore).store.chats.map
      (·.participants) = [["u1", "u1"]] := by
  decide

/-- Claim C4, amended: the pair is never validated. An empty recipient id
takes the silent early return — no store operation, but a successful
outcome rather than an `InvalidPairing` error — while equal sender and
recipient ids proceed to create the record and append the message. -/
theorem C4_amended :
    (∀ (b : StoreBehavior) (cu : CurrentUser) (rn ri vn : Option String)
        (cid : Option DocId) (msgs : List GMsg) (s : Store),
      onSend b ⟨some cu, "", rn, ri, vn, cid⟩ msgs s = ⟨s, cid, .ok ()⟩) ∧
    (onSend allOk ctxSelf [⟨"hello"⟩] emptyStore).store.msgs.length = 1 := by
  constructor
  · intro b cu rn ri vn cid msgs s
    simp [onSend]
  · decide

/-- Claim C5: when the create step runs and fails, or the append step
fails, the whole `onSend` fails (a rejected promise, carrying the failing
step's error) and no message from this send is observable: the message
subcollection is exactly as before. -/
theorem C5_send_atomic (b : StoreBehavior) (cu : CurrentUser) (rid : Uid)
    (rn ri vn : Option String) (cid : Option DocId) (m : GMsg)
    (rest : List GMsg) (s : Store) (hrid : rid ≠ "")
    (hfail : (cid = none ∧ b.createFails = true) ∨ b.appendFails = true) :
    (onSend b ⟨some cu, rid, rn, ri, vn, cid⟩ (m :: rest) s).outcome.isOk =
      false ∧
    (onSend b ⟨some cu, rid, rn, ri, vn, cid⟩ (m :: rest) s).store.msgs =
      s.msgs := by
  cases cid with
  | some d =>
    rcases hfail with ⟨h, _⟩ | h
    · exact absurd h (by simp)
    · simp [onSend, sendToRef, hrid, h, Except.isOk, Except.toBool]
  | none =>
    cases hc : b.createFails with
    | true => simp [onSend, hrid, hc, Except.isOk, Except.toBool]
    | false =>
      rcases hfail with ⟨_, h⟩ | h
      · rw [hc] at h
        exact absurd h (by simp)
      · simp [onSend, sendToRef, hrid, hc, h, Except.isOk, Except.toBool]

/-- Witness for C5: a concrete first send whose `setDoc` rejects fails and
leaves the message subcollection empty. -/
theorem C5_witness :
    (onSend ⟨true, false, false⟩ ⟨some alice, "u2", some "Bob", none, none,
      none⟩ [⟨"hi"⟩] emptyStore).outcome.isOk = false ∧
    (onSend ⟨true, false, false⟩ ⟨some alice, "u2", some "Bob", none, none,
      none⟩ [⟨"hi"⟩] emptyStore).store.msgs = emptyStore.msgs :=
  C5_send_atomic ⟨true, false, false⟩ alice "u2" (some "Bob") none none none
    ⟨"hi"⟩ [] emptyStore (by decide) (Or.inl ⟨rfl, rfl⟩)

/-- Inserting a message that must not precede any element of the list in
the descending order lands at the end. -/
lemma insertByDesc_append (a : MessageDoc) (l : List MessageDoc)
    (h : ∀ b ∈ l, descBefore a b = false) :
    insertByDesc a l = l ++ [a] := by
  induction l with
  | nil => rfl
  | cons b t ih =>
    simp only [insertByDesc]
    rw [h b (List.mem_cons_self b t)]
    simp [ih (fun x hx => h x (List.mem_cons_of_mem b hx))]

/-- The store's descending sort of a log whose timestamps strictly increase
in append order is exactly the reverse of the log. -/
lemma sortMsgsDesc_strict_incr (l : List MessageDoc)
    (h : l.Pairwise (fun m m' =>
      m.createdAt.getD 0 < m'.createdAt.getD 0)) :
    sortMsgsDesc l = l.reverse := by
  induction l with
  | nil => rfl
  | cons a t ih =>
    rw [List.pairwise_cons] at h
    simp only [sortMsgsDesc]
    rw [ih h.2, insertByDesc_append, List.reverse_cons]
    intro x hx
    have hlt := h.1 x (List.mem_reverse.mp hx)
    have h1 : ¬ (x.createdAt.getD 0 < a.createdAt.getD 0) := by omega
    have h2 : ¬ (x.createdAt.getD 0 = a.createdAt.getD 0) := by omega
    simp [descBefore, h1, h2]

/-- Claim C6, counterexample: the projection delivered to the observer is
NOT the ascending (append-order) view: with two messages appended at
timestamps 1 then 2, the delivered list is the reverse of append order
(descending), and no second, ascending view is computed anywhere in the
screen — the claim's causal view equal to append order does not exist. -/
theorem C6_counterexample :
    loadedMessages twoMsgStore 0 ≠ (msgLog twoMsgStore 0).map projectDoc ∧
    loadedMessages twoMsgStore 0 =
      ((msgLog twoMsgStore 0).map projectDoc).reverse := by
  decide

/-- Claim C6, amended: the single subscription delivers one view only, the
descending (display) one: whenever the timestamps of a conversation's log
strictly increase in append order, the delivered projection equals the
exact reverse of the append-order projection; no ascending view and no
separate de-duplication step are computed. -/
theorem C6_amended (s : Store) (d : DocId)
    (h : (msgLog s d).Pairwise (fun m m' =>
      m.createdAt.getD 0 < m'.createdAt.getD 0)) :
    loadedMessages s d = ((msgLog s d).map projectDoc).reverse := by
  unfold loadedMessages queryMessagesDesc
  rw [sortMsgsDesc_strict_incr _ h, List.map_reverse]

/-- Witness for C6's amended theorem at the concrete two-message store. -/
theorem C6_amended_witness :
    loadedMessages twoMsgStore 0 =
      ((msgLog twoMsgStore 0).map projectDoc).reverse :=
  C6_amended twoMsgStore 0 (by decide)

/-- Claim C7: resolving (viewing) a conversation never writes to the store —
the screen effect returns the store unchanged for every input — and a
Conversation record for a pair is created exactly by the first send: a
first send from a screen with no resolved chat document and a succeeding
`setDoc` raises the pair's record count from its current value by one. -/
theorem C7_view_readonly :
    (∀ (s : Store) (cu : Option CurrentUser) (rid : Uid),
      (viewEffect s cu rid).1 = s) ∧
    (∀ (b : StoreBehavior) (cu : CurrentUser) (rid : Uid)
        (rn ri vn : Option String) (m : GMsg) (rest : List GMsg) (s : Store),
      b.createFails = false → rid ≠ "" →
      countConvs (onSend b ⟨some cu, rid, rn, ri, vn, none⟩ (m :: rest)
          s).store (sortPair cu.uid rid) =
        countConvs s (sortPair cu.uid rid) + 1) := by
  constructor
  · intro s cu rid
    unfold viewEffect
    cases cu with
    | none => rfl
    | some c =>
      by_cases hr : rid = ""
      · simp [hr]
      · cases hres : resolveChatDocId s c.uid rid <;> simp [hr, hres]
  · intro b cu rid rn ri vn m rest s hc hrid
    simp only [onSend, hrid, hc, countConvs_sendToRef, ne_eq,
      not_false_eq_true, if_neg, Bool.false_eq_true, if_false]
    unfold countConvs
    simp [mkChatDoc, List.filter_append]

/-- Witness for C7: concretely, viewing the two-message store writes
nothing, and a first send against the empty store creates one record for
the pair. -/
theorem C7_witness :
    (viewEffect twoMsgStore (some alice) "u2").1 = twoMsgStore ∧
    countConvs (onSend allOk ⟨some alice, "u2", some "Bob", none, none,
        none⟩ [⟨"hi"⟩] emptyStore).store (sortPair alice.uid "u2") =
      countConvs emptyStore (sortPair alice.uid "u2") + 1 :=
  ⟨C7_view_readonly.1 twoMsgStore (some alice) "u2",
   C7_view_readonly.2 allOk alice "u2" (some "Bob") none none ⟨"hi"⟩ []
     emptyStore rfl (by decide)⟩

/-- Claim C8, counterexample: a summary-update failure IS treated as a
failure of the send: with `setDoc` and `addDoc` succeeding and `updateDoc`
rejecting, the message is appended yet the operation's outcome is the
propagated update error, not success. -/
theorem C8_counterexample :
    (onSend ⟨false, false, true⟩ ctxAlice [⟨"hi"⟩] emptyStore).outcome =
      .error .updateFailed ∧
    (onSend ⟨false, false, true⟩ ctxAlice [⟨"hi"⟩]
      emptyStore).store.msgs.map (·.2.text) = ["hi"] := by
  decide

/-- Claim C8, amended: whenever the create and append steps succeed but the
summary update fails, `onSend` reports the update failure to the caller —
the unawaited-for success never happens — even though the message was
already durably appended (the subcollection grew by one). -/
theorem C8_amended (b : StoreBehavior) (cu : CurrentUser) (rid : Uid)
    (rn ri vn : Option String) (cid : Option DocId) (m : GMsg)
    (rest : List GMsg) (s : Store) (hrid : rid ≠ "")
    (ha : b.appendFails = false) (hu : b.updateFails = true)
    (hc : cid = none → b.createFails = false) :
    (onSend b ⟨some cu, rid, rn, ri, vn, cid⟩ (m :: rest) s).outcome =
      .error .updateFailed ∧
    (onSend b ⟨some cu, rid, rn, ri, vn, cid⟩ (m :: rest)
        s).store.msgs.length = s.msgs.length + 1 := by
  cases cid with
  | some d => simp [onSend, sendToRef, summaryStep, hrid, ha, hu]
  | none => simp [onSend, sendToRef, summaryStep, hrid, ha, hu, hc rfl]

/-- Witness for C8's amended theorem: a concrete send whose summary update
rejects reports the update failure while its message is appended. -/
theorem C8_amended_witness :
    (onSend ⟨false, false, true⟩ ⟨some alice, "u2", some "Bob", none, none,
      none⟩ [⟨"yo"⟩] emptyStore).outcome = .error .updateFailed ∧
    (onSend ⟨false, false, true⟩ ⟨some alice, "u2", some "Bob", none, none,
      none⟩ [⟨"yo"⟩] emptyStore).store.msgs.length =
      emptyStore.msgs.length + 1 :=
  C8_amended ⟨false, false, true⟩ alice "u2" (some "Bob") none none none
    ⟨"yo"⟩ [] emptyStore (by decide) rfl rfl (fun _ => rfl)
